import Mathlib

/-!
Verification development for the Tilemap core of this repository: tile-ID
classification, autotile shape tables, map-data reads, spot expansion into
rectangle-blit commands, viewport repaint memoization, and child depth
sorting.  All definitions are shallow embeddings of the JavaScript source
(`Tilemap` and its prototype methods); JavaScript numbers are modelled as
`Nat`/`Int` where the source only ever holds integers in the relevant
domain, and as `ℚ` where fractional pixel arithmetic occurs
(half-tile sizes, scroll origins).
-/

set_option maxRecDepth 4000

namespace Tilemap

/-! ### Tile ID constants (Tilemap.TILE_ID_*) -/

def TILE_ID_B : Nat := 0
def TILE_ID_C : Nat := 256
def TILE_ID_D : Nat := 512
def TILE_ID_E : Nat := 768
def TILE_ID_A5 : Nat := 1536
def TILE_ID_A1 : Nat := 2048
def TILE_ID_A2 : Nat := 2816
def TILE_ID_A3 : Nat := 4352
def TILE_ID_A4 : Nat := 5888
def TILE_ID_MAX : Nat := 8192

/-! ### Tile type checkers (static methods on Tilemap)

Tile ids are modelled as `Nat`: every id stored in map data or produced by
`makeAutotileId` is a non-negative integer, and all call sites of the
subtraction-based helpers guard with `isAutotile` (id ≥ 2048), where `Nat`
subtraction and JavaScript subtraction agree. -/

def isVisibleTile (tileId : Nat) : Bool :=
  0 < tileId && tileId < TILE_ID_MAX

def isAutotile (tileId : Nat) : Bool :=
  TILE_ID_A1 ≤ tileId

def getAutotileKind (tileId : Nat) : Nat :=
  (tileId - TILE_ID_A1) / 48

def getAutotileShape (tileId : Nat) : Nat :=
  (tileId - TILE_ID_A1) % 48

def makeAutotileId (kind shape : Nat) : Nat :=
  TILE_ID_A1 + kind * 48 + shape

def isTileA1 (tileId : Nat) : Bool :=
  TILE_ID_A1 ≤ tileId && tileId < TILE_ID_A2

def isTileA2 (tileId : Nat) : Bool :=
  TILE_ID_A2 ≤ tileId && tileId < TILE_ID_A3

def isTileA3 (tileId : Nat) : Bool :=
  TILE_ID_A3 ≤ tileId && tileId < TILE_ID_A4

def isTileA4 (tileId : Nat) : Bool :=
  TILE_ID_A4 ≤ tileId && tileId < TILE_ID_MAX

def isTileA5 (tileId : Nat) : Bool :=
  TILE_ID_A5 ≤ tileId && tileId < TILE_ID_A1

def isShadowingTile (tileId : Nat) : Bool :=
  isTileA3 tileId || isTileA4 tileId

/-! ### Autotile shape tables (Tilemap.FLOOR/WALL/WATERFALL_AUTOTILE_TABLE)

Transcribed entry-for-entry from the source; each entry lists the four
quarter-tile (quadrant) source coordinates (top-left, top-right,
bottom-left, bottom-right). -/

def FLOOR_AUTOTILE_TABLE : List (List (Nat × Nat)) := [
  [(2, 4), (1, 4), (2, 3), (1, 3)],
  [(2, 0), (1, 4), (2, 3), (1, 3)],
  [(2, 4), (3, 0), (2, 3), (1, 3)],
  [(2, 0), (3, 0), (2, 3), (1, 3)],
  [(2, 4), (1, 4), (2, 3), (3, 1)],
  [(2, 0), (1, 4), (2, 3), (3, 1)],
  [(2, 4), (3, 0), (2, 3), (3, 1)],
  [(2, 0), (3, 0), (2, 3), (3, 1)],
  [(2, 4), (1, 4), (2, 1), (1, 3)],
  [(2, 0), (1, 4), (2, 1), (1, 3)],
  [(2, 4), (3, 0), (2, 1), (1, 3)],
  [(2, 0), (3, 0), (2, 1), (1, 3)],
  [(2, 4), (1, 4), (2, 1), (3, 1)],
  [(2, 0), (1, 4), (2, 1), (3, 1)],
  [(2, 4), (3, 0), (2, 1), (3, 1)],
  [(2, 0), (3, 0), (2, 1), (3, 1)],
  [(0, 4), (1, 4), (0, 3), (1, 3)],
  [(0, 4), (3, 0), (0, 3), (1, 3)],
  [(0, 4), (1, 4), (0, 3), (3, 1)],
  [(0, 4), (3, 0), (0, 3), (3, 1)],
  [(2, 2), (1, 2), (2, 3), (1, 3)],
  [(2, 2), (1, 2), (2, 3), (3, 1)],
  [(2, 2), (1, 2), (2, 1), (1, 3)],
  [(2, 2), (1, 2), (2, 1), (3, 1)],
  [(2, 4), (3, 4), (2, 3), (3, 3)],
  [(2, 4), (3, 4), (2, 1), (3, 3)],
  [(2, 0), (3, 4), (2, 3), (3, 3)],
  [(2, 0), (3, 4), (2, 1), (3, 3)],
  [(2, 4), (1, 4), (2, 5), (1, 5)],
  [(2, 0), (1, 4), (2, 5), (1, 5)],
  [(2, 4), (3, 0), (2, 5), (1, 5)],
  [(2, 0), (3, 0), (2, 5), (1, 5)],
  [(0, 4), (3, 4), (0, 3), (3, 3)],
  [(2, 2), (1, 2), (2, 5), (1, 5)],
  [(0, 2), (1, 2), (0, 3), (1, 3)],
  [(0, 2), (1, 2), (0, 3), (3, 1)],
  [(2, 2), (3, 2), (2, 3), (3, 3)],
  [(2, 2), (3, 2), (2, 1), (3, 3)],
  [(2, 4), (3, 4), (2, 5), (3, 5)],
  [(2, 0), (3, 4), (2, 5), (3, 5)],
  [(0, 4), (1, 4), (0, 5), (1, 5)],
  [(0, 4), (3, 0), (0, 5), (1, 5)],
  [(0, 2), (3, 2), (0, 3), (3, 3)],
  [(0, 2), (1, 2), (0, 5), (1, 5)],
  [(0, 4), (3, 4), (0, 5), (3, 5)],
  [(2, 2), (3, 2), (2, 5), (3, 5)],
  [(0, 2), (3, 2), (0, 5), (3, 5)],
  [(0, 0), (1, 0), (0, 1), (1, 1)]
]

def WALL_AUTOTILE_TABLE : List (List (Nat × Nat)) := [
  [(2, 2), (1, 2), (2, 1), (1, 1)],
  [(0, 2), (1, 2), (0, 1), (1, 1)],
  [(2, 0), (1, 0), (2, 1), (1, 1)],
  [(0, 0), (1, 0), (0, 1), (1, 1)],
  [(2, 2), (3, 2), (2, 1), (3, 1)],
  [(0, 2), (3, 2), (0, 1), (3, 1)],
  [(2, 0), (3, 0), (2, 1), (3, 1)],
  [(0, 0), (3, 0), (0, 1), (3, 1)],
  [(2, 2), (1, 2), (2, 3), (1, 3)],
  [(0, 2), (1, 2), (0, 3), (1, 3)],
  [(2, 0), (1, 0), (2, 3), (1, 3)],
  [(0, 0), (1, 0), (0, 3), (1, 3)],
  [(2, 2), (3, 2), (2, 3), (3, 3)],
  [(0, 2), (3, 2), (0, 3), (3, 3)],
  [(2, 0), (3, 0), (2, 3), (3, 3)],
  [(0, 0), (3, 0), (0, 3), (3, 3)]
]

def WATERFALL_AUTOTILE_TABLE : List (List (Nat × Nat)) := [
  [(2, 0), (1, 0), (2, 1), (1, 1)],
  [(0, 0), (1, 0), (0, 1), (1, 1)],
  [(2, 0), (3, 0), (2, 1), (3, 1)],
  [(0, 0), (3, 0), (0, 1), (3, 1)]
]

end Tilemap

/-- Rectangle-blit command, as accepted by the DrawLayer contract
`addRect(setNumber, sx, sy, dx, dy, w, h)`.  Shadow commands use the
sentinel set number `-1`, so `setNumber` is an `Int`; pixel values are
modelled as `ℚ` (JavaScript numbers; half-tile arithmetic is exact). -/
structure RectCmd where
  setNumber : Int
  sx : ℚ
  sy : ℚ
  dx : ℚ
  dy : ℚ
  w : ℚ
  h : ℚ
deriving DecidableEq

/-- Which of the two draw layers a command is routed to (`this._lowerLayer`
with z = 0, `this._upperLayer` with z = 4). -/
inductive LayerRef
  | lower
  | upper
deriving DecidableEq

/-- The contents of the two draw layers: the ordered rectangle-blit command
lists accumulated by the expansion pass. -/
structure Layers where
  lower : List RectCmd
  upper : List RectCmd
deriving DecidableEq

/-- Embeds `layer.addRect(setNumber, sx, sy, dx, dy, w, h)`: appends one
command to the addressed layer, preserving emission order. -/
def Layers.addRect (ls : Layers) (r : LayerRef) (setNumber : Int)
    (sx sy dx dy w h : ℚ) : Layers :=
  match r with
  | .lower => { ls with lower := ls.lower ++ [⟨setNumber, sx, sy, dx, dy, w, h⟩] }
  | .upper => { ls with upper := ls.upper ++ [⟨setNumber, sx, sy, dx, dy, w, h⟩] }

/-- The Tilemap instance state relevant to map reads and repainting: the
fields set by `Tilemap.prototype.initialize`, `setData` and `refresh`, plus
the repaint cache (`_lastAnimationFrame`, `_lastStartX`, `_lastStartY`,
which are `undefined` in JavaScript until first committed — modelled as
`Option`) and the current contents of the two draw layers.  The bitmap
list and the PIXI display plumbing (layer x/y positions, children) are
outside the DrawLayer contract modelled here. -/
structure Tilemap where
  _width : ℚ
  _height : ℚ
  _margin : ℚ
  _tileWidth : ℚ
  _tileHeight : ℚ
  _mapWidth : Int
  _mapHeight : Int
  _mapData : Option (List Nat)
  flags : List Nat
  animationFrame : Nat
  horizontalWrap : Bool
  verticalWrap : Bool
  originX : ℚ
  originY : ℚ
  _needsRepaint : Bool
  _lastAnimationFrame : Option Nat
  _lastStartX : Option Int
  _lastStartY : Option Int
  _lowerLayer : List RectCmd
  _upperLayer : List RectCmd
deriving DecidableEq

/-- Embeds `Tilemap.prototype.initialize` (plus `_createLayers`/`refresh`):
the state of a freshly constructed Tilemap — no map data, empty flags,
wrap disabled, margin 20, 48×48 tiles, repaint requested, no committed
repaint cache.  (`animationFrame` is `undefined` in JavaScript until the
first `update()`; it is modelled as 0 here, which no claim depends on.) -/
def Tilemap.initState (width height : ℚ) : Tilemap where
  _width := width
  _height := height
  _margin := 20
  _tileWidth := 48
  _tileHeight := 48
  _mapWidth := 0
  _mapHeight := 0
  _mapData := none
  flags := []
  animationFrame := 0
  horizontalWrap := false
  verticalWrap := false
  originX := 0
  originY := 0
  _needsRepaint := true
  _lastAnimationFrame := none
  _lastStartX := none
  _lastStartY := none
  _lowerLayer := []
  _upperLayer := []

/-- Modelled from the spec: the repository's `Number.prototype.mod`
extension (used by `_readMapData` as `x.mod(width)`) is not under `src/`;
the spec describes it as true mathematical modulo — non-negative result
for a positive modulus, so negative coordinates wrap correctly — which on
integers is `Int.emod`. -/
def numberMod (a n : Int) : Int :=
  a.emod n

/-- Embeds `Tilemap.prototype._readMapData`: wrap enabled axes reduce the
coordinate modulo the map size, then an in-bounds read indexes the flat
array `(z * height + y) * width + x` (missing entries default to 0, like
`|| 0`), and any out-of-bounds coordinate or absent map data reads 0. -/
def Tilemap._readMapData (tm : Tilemap) (x y z : Int) : Nat :=
  match tm._mapData with
  | some data =>
    let width := tm._mapWidth
    let height := tm._mapHeight
    let x := if tm.horizontalWrap then numberMod x width else x
    let y := if tm.verticalWrap then numberMod y height else y
    if 0 ≤ x ∧ x < width ∧ 0 ≤ y ∧ y < height then
      let idx := (z * height + y) * width + x
      if 0 ≤ idx then data.getD idx.toNat 0 else 0
    else 0
  | none => 0

/-- Embeds `Tilemap.prototype._isHigherTile`: flag bit 0x10 (absent flag
entries read as 0, like JavaScript `undefined & 0x10`). -/
def Tilemap._isHigherTile (tm : Tilemap) (tileId : Nat) : Bool :=
  (tm.flags.getD tileId 0) &&& 0x10 != 0

/-- Embeds `Tilemap.prototype._isTableTile`: an A2 tile whose flag has bit
0x80 set. -/
def Tilemap._isTableTile (tm : Tilemap) (tileId : Nat) : Bool :=
  Tilemap.isTileA2 tileId && ((tm.flags.getD tileId 0) &&& 0x80 != 0)

/-- Embeds `Tilemap.prototype._isOverpassPosition`: hard-coded to false. -/
def Tilemap._isOverpassPosition (_tm : Tilemap) (_mx _my : Int) : Bool :=
  false

/-- Embeds `Tilemap.prototype._addNormalTile`: one full-size rect from the
computed tileset bank and source offset. -/
def Tilemap._addNormalTile (tm : Tilemap) (r : LayerRef) (tileId : Nat)
    (dx dy : ℚ) (ls : Layers) : Layers :=
  let setNumber : Int :=
    if Tilemap.isTileA5 tileId then 4 else ((5 + tileId / 256 : Nat) : Int)
  let w := tm._tileWidth
  let h := tm._tileHeight
  let sx : ℚ := (((tileId / 128) % 2) * 8 + tileId % 8 : Nat) * w
  let sy : ℚ := (((tileId % 256) / 8) % 16 : Nat) * h
  ls.addRect r setNumber sx sy dx dy w h

/-- Embeds `Tilemap.prototype._addAutotile`.  The branch chain computes
`(setNumber, bx, by, autotileTable, isTable)` exactly as the source's
mutable locals; the `Nat` subtractions `ty - 2`, `ty - 6`, `ty - 10` sit in
branches whose guards force `ty` ≥ 2/6/10 respectively, where they agree
with JavaScript subtraction.  The JavaScript `autotileTable[shape]` lookup
throws a TypeError when `shape` exceeds the selected table's length (the
subsequent `table[i][0]` dereferences `undefined`); this is modelled by
`Option`: the result is `none` exactly when that lookup is out of bounds.
Each of the four quadrants emits one quarter rect, or — for table tiles
whose quadrant touches the table edge (`qsy` 1 or 5) — a full quadrant from
the substituted source pair plus a half-height strip shifted down by half a
quadrant. -/
def Tilemap._addAutotile (tm : Tilemap) (r : LayerRef) (tileId : Nat)
    (dx dy : ℚ) (ls : Layers) : Option Layers :=
  let kind := Tilemap.getAutotileKind tileId
  let shape := Tilemap.getAutotileShape tileId
  let tx := kind % 8
  let ty := kind / 8
  let ps : Int × ℚ × ℚ × List (List (Nat × Nat)) × Bool :=
    if Tilemap.isTileA1 tileId then
      let waterSurfaceIndex := [0, 1, 2, 1].getD (tm.animationFrame % 4) 0
      if kind == 0 then
        (0, (waterSurfaceIndex : ℚ) * 2, 0, Tilemap.FLOOR_AUTOTILE_TABLE, false)
      else if kind == 1 then
        (0, (waterSurfaceIndex : ℚ) * 2, 3, Tilemap.FLOOR_AUTOTILE_TABLE, false)
      else if kind == 2 then
        (0, 6, 0, Tilemap.FLOOR_AUTOTILE_TABLE, false)
      else if kind == 3 then
        (0, 6, 3, Tilemap.FLOOR_AUTOTILE_TABLE, false)
      else
        let bx : ℚ := ((tx / 4) * 8 : Nat)
        let byv : ℚ := (ty * 6 + ((tx / 2) % 2) * 3 : Nat)
        if kind % 2 == 0 then
          (0, bx + (waterSurfaceIndex : ℚ) * 2, byv, Tilemap.FLOOR_AUTOTILE_TABLE, false)
        else
          (0, bx + 6, byv + (tm.animationFrame % 3 : Nat),
            Tilemap.WATERFALL_AUTOTILE_TABLE, false)
    else if Tilemap.isTileA2 tileId then
      (1, (tx * 2 : Nat), ((ty - 2) * 3 : Nat), Tilemap.FLOOR_AUTOTILE_TABLE,
        tm._isTableTile tileId)
    else if Tilemap.isTileA3 tileId then
      (2, (tx * 2 : Nat), ((ty - 6) * 2 : Nat), Tilemap.WALL_AUTOTILE_TABLE, false)
    else if Tilemap.isTileA4 tileId then
      (3, (tx * 2 : Nat),
        ((Rat.floor (((ty - 10 : Nat) : ℚ) * (5 / 2) +
          (if ty % 2 == 1 then (1 : ℚ) / 2 else 0)) : Int) : ℚ),
        if ty % 2 == 1 then Tilemap.WALL_AUTOTILE_TABLE
        else Tilemap.FLOOR_AUTOTILE_TABLE, false)
    else (0, 0, 0, Tilemap.FLOOR_AUTOTILE_TABLE, false)
  let setNumber := ps.1
  let bx := ps.2.1
  let byv := ps.2.2.1
  let autotileTable := ps.2.2.2.1
  let isTable := ps.2.2.2.2
  (autotileTable[shape]?).map fun table =>
    let w1 := tm._tileWidth / 2
    let h1 := tm._tileHeight / 2
    (List.range 4).foldl (fun ls i =>
      let qsx := (table.getD i (0, 0)).1
      let qsy := (table.getD i (0, 0)).2
      let sx1 := (bx * 2 + (qsx : ℚ)) * w1
      let sy1 := (byv * 2 + (qsy : ℚ)) * h1
      let dx1 := dx + ((i % 2 : Nat) : ℚ) * w1
      let dy1 := dy + ((i / 2 : Nat) : ℚ) * h1
      if isTable && (qsy == 1 || qsy == 5) then
        let qsx2 := if qsy == 1 then (4 - qsx) % 4 else qsx
        let qsy2 : Nat := 3
        let sx2 := (bx * 2 + (qsx2 : ℚ)) * w1
        let sy2 := (byv * 2 + (qsy2 : ℚ)) * h1
        (ls.addRect r setNumber sx2 sy2 dx1 dy1 w1 h1).addRect r setNumber
          sx1 sy1 dx1 (dy1 + h1 / 2) w1 (h1 / 2)
      else
        ls.addRect r setNumber sx1 sy1 dx1 dy1 w1 h1) ls

/-- Embeds `Tilemap.prototype._addTableEdge`: for an A2 tile, two
half-height rects from the floor-table entries at quadrant indices 2 and 3,
with the source y shifted down by half a quadrant.  `shape < 48` always
(it is a remainder mod 48), so the floor-table lookup (modelled with a
default) is always in bounds. -/
def Tilemap._addTableEdge (tm : Tilemap) (r : LayerRef) (tileId : Nat)
    (dx dy : ℚ) (ls : Layers) : Layers :=
  if Tilemap.isTileA2 tileId then
    let autotileTable := Tilemap.FLOOR_AUTOTILE_TABLE
    let kind := Tilemap.getAutotileKind tileId
    let shape := Tilemap.getAutotileShape tileId
    let tx := kind % 8
    let ty := kind / 8
    let setNumber : Int := 1
    let bx : ℚ := (tx * 2 : Nat)
    let byv : ℚ := ((ty - 2) * 3 : Nat)
    let table := autotileTable.getD shape []
    let w1 := tm._tileWidth / 2
    let h1 := tm._tileHeight / 2
    (List.range 2).foldl (fun ls i =>
      let qsx := (table.getD (2 + i) (0, 0)).1
      let qsy := (table.getD (2 + i) (0, 0)).2
      let sx1 := (bx * 2 + (qsx : ℚ)) * w1
      let sy1 := (byv * 2 + (qsy : ℚ)) * h1 + h1 / 2
      let dx1 := dx + ((i % 2 : Nat) : ℚ) * w1
      let dy1 := dy + ((i / 2 : Nat) : ℚ) * h1
      ls.addRect r setNumber sx1 sy1 dx1 dy1 w1 (h1 / 2)) ls
  else ls

/-- Embeds `Tilemap.prototype._addShadow`: one flat-overlay quarter rect
(sentinel set number -1) per set bit among the low four shadow bits. -/
def Tilemap._addShadow (tm : Tilemap) (r : LayerRef) (shadowBits : Nat)
    (dx dy : ℚ) (ls : Layers) : Layers :=
  if shadowBits &&& 0x0f != 0 then
    let w1 := tm._tileWidth / 2
    let h1 := tm._tileHeight / 2
    (List.range 4).foldl (fun ls i =>
      if shadowBits &&& (1 <<< i) != 0 then
        let dx1 := dx + ((i % 2 : Nat) : ℚ) * w1
        let dy1 := dy + ((i / 2 : Nat) : ℚ) * h1
        ls.addRect r (-1) 0 0 dx1 dy1 w1 h1
      else ls) ls
  else ls

/-- Embeds `Tilemap.prototype._addTile`: invisible ids emit nothing,
autotiles expand through the shape tables, other visible ids emit one
normal rect. -/
def Tilemap._addTile (tm : Tilemap) (r : LayerRef) (tileId : Nat)
    (dx dy : ℚ) (ls : Layers) : Option Layers :=
  if Tilemap.isVisibleTile tileId then
    if Tilemap.isAutotile tileId then tm._addAutotile r tileId dx dy ls
    else some (tm._addNormalTile r tileId dx dy ls)
  else some ls

/-- Embeds `Tilemap.prototype._addSpotTile`: routes to the upper layer when
the tile's flag marks it higher (bit 0x10), else to the lower layer. -/
def Tilemap._addSpotTile (tm : Tilemap) (tileId : Nat) (dx dy : ℚ)
    (ls : Layers) : Option Layers :=
  if tm._isHigherTile tileId then tm._addTile .upper tileId dx dy ls
  else tm._addTile .lower tileId dx dy ls

/-- Embeds `Tilemap.prototype._addSpot`: reads the five data planes at the
cell (and plane 1 of the cell above), emits the two ground planes, the
shadow overlay, the table-edge stitching when the neighbor above is a table
tile while this cell is not and the ground tile does not shadow, then the
two overlay planes (forced to the upper layer at overpass positions, which
never occur). -/
def Tilemap._addSpot (tm : Tilemap) (startX startY : Int) (x y : Nat)
    (ls : Layers) : Option Layers :=
  let mx : Int := startX + x
  let my : Int := startY + y
  let dx : ℚ := (x : ℚ) * tm._tileWidth
  let dy : ℚ := (y : ℚ) * tm._tileHeight
  let tileId0 := tm._readMapData mx my 0
  let tileId1 := tm._readMapData mx my 1
  let tileId2 := tm._readMapData mx my 2
  let tileId3 := tm._readMapData mx my 3
  let shadowBits := tm._readMapData mx my 4
  let upperTileId1 := tm._readMapData mx (my - 1) 1
  do
    let ls ← tm._addSpotTile tileId0 dx dy ls
    let ls ← tm._addSpotTile tileId1 dx dy ls
    let ls := tm._addShadow .lower shadowBits dx dy ls
    let ls :=
      if tm._isTableTile upperTileId1 && !(tm._isTableTile tileId1) then
        if !(Tilemap.isShadowingTile tileId0) then
          tm._addTableEdge .lower upperTileId1 dx dy ls
        else ls
      else ls
    if tm._isOverpassPosition mx my then
      let ls ← tm._addTile .upper tileId2 dx dy ls
      tm._addTile .upper tileId3 dx dy ls
    else
      let ls ← tm._addSpotTile tileId2 dx dy ls
      tm._addSpotTile tileId3 dx dy ls

/-- Embeds `Tilemap.prototype._addAllSpots`: clears both draw layers, then
expands every cell of the visible window (rows outer, columns inner). -/
def Tilemap._addAllSpots (tm : Tilemap) (startX startY : Int) : Option Layers :=
  let ls : Layers := ⟨[], []⟩
  let widthWithMatgin := tm._width + tm._margin * 2
  let heightWithMatgin := tm._height + tm._margin * 2
  let tileCols := (Rat.ceil (widthWithMatgin / tm._tileWidth) + 1).toNat
  let tileRows := (Rat.ceil (heightWithMatgin / tm._tileHeight) + 1).toNat
  (List.range tileRows).foldlM (fun ls y =>
    (List.range tileCols).foldlM (fun ls x =>
      tm._addSpot startX startY x y ls) ls) ls

/-- The visible-window start column computed by `updateTransform`:
`Math.floor((Math.ceil(origin.x) - margin) / tileWidth)`. -/
def Tilemap.updateStartX (tm : Tilemap) : Int :=
  Rat.floor ((((Rat.ceil tm.originX : Int) : ℚ) - tm._margin) / tm._tileWidth)

/-- The visible-window start row computed by `updateTransform`:
`Math.floor((Math.ceil(origin.y) - margin) / tileHeight)`. -/
def Tilemap.updateStartY (tm : Tilemap) : Int :=
  Rat.floor ((((Rat.ceil tm.originY : Int) : ℚ) - tm._margin) / tm._tileHeight)

/-- The repaint condition tested by `updateTransform`: an explicit refresh
request, or the animation frame or the start cell differing from the last
committed values (`!==` on possibly-undefined fields). -/
def Tilemap.repaintGuard (tm : Tilemap) (startX startY : Int) : Bool :=
  tm._needsRepaint || (tm._lastAnimationFrame != some tm.animationFrame) ||
    (tm._lastStartX != some startX) || (tm._lastStartY != some startY)

/-- Embeds the repaint logic of `Tilemap.prototype.updateTransform`: when
the repaint guard holds, commit the current animation frame and start cell,
re-expand the whole visible window into freshly cleared layers, and clear
the refresh request; otherwise leave the state unchanged.  (The source also
repositions the two layer containers and re-sorts the children — display
plumbing outside the DrawLayer contract, with no effect on layer
contents.) -/
def Tilemap.updateTransform (tm : Tilemap) : Option Tilemap :=
  let startX := tm.updateStartX
  let startY := tm.updateStartY
  if tm.repaintGuard startX startY then
    match tm._addAllSpots startX startY with
    | none => none
    | some ls => some { tm with
        _lastAnimationFrame := some tm.animationFrame
        _lastStartX := some startX
        _lastStartY := some startY
        _lowerLayer := ls.lower
        _upperLayer := ls.upper
        _needsRepaint := false }
  else some tm

/-- Embeds `Tilemap.prototype.refresh`: requests a full repaint. -/
def Tilemap.refresh (tm : Tilemap) : Tilemap :=
  { tm with _needsRepaint := true }

/-- A sortable drawable child of the tilemap container: z layer, pixel y,
and insertion sequence number, as read by `_compareChildOrder`
(coordinates are modelled as integers). -/
structure Child where
  z : Int
  y : Int
  spriteId : Int
deriving DecidableEq

/-- Embeds `Tilemap.prototype._compareChildOrder`: z difference, then y
difference, then spriteId difference. -/
def Tilemap._compareChildOrder (a b : Child) : Int :=
  if a.z ≠ b.z then a.z - b.z
  else if a.y ≠ b.y then a.y - b.y
  else a.spriteId - b.spriteId

/-- Stable insertion of a child after every already-placed child that does
not compare greater — the building block of the stable comparator sort. -/
def Tilemap.sortedInsertChild (a : Child) : List Child → List Child
  | [] => [a]
  | b :: l =>
    if Tilemap._compareChildOrder b a ≤ 0 then b :: Tilemap.sortedInsertChild a l
    else a :: b :: l

/-- Embeds `Tilemap.prototype._sortChildren`
(`children.sort(comparator)`): a stable sort by `_compareChildOrder`
(ECMAScript requires `Array.prototype.sort` to be stable), realized as a
stable insertion sort. -/
def Tilemap._sortChildren (children : List Child) : List Child :=
  children.foldl (fun acc c => Tilemap.sortedInsertChild c acc) []

/-- A 1×1 map whose single cell's ground plane 0 holds `TILE_ID_A1` (2048:
kind 0, shape 0, the deep-water base tile), with empty flags and animation
frame 0 (claim C1's scenario). -/
def exampleDeepWaterMap : Tilemap :=
  { Tilemap.initState 48 48 with
    _mapWidth := 1
    _mapHeight := 1
    _mapData := some [2048, 0, 0, 0, 0] }

/-- A 1×2 map for claim C8: the upper row's plane-1 tile is the A2 autotile
2816 whose flag has the table bit 0x80, the lower row's plane-1 tile is
empty (not a table tile), and the lower row's plane-0 tile is the plain A5
tile 1536 (not a shadowing tile). -/
def exampleTableEdgeMap : Tilemap :=
  { Tilemap.initState 48 96 with
    _mapWidth := 1
    _mapHeight := 2
    _mapData := some [0, 1536, 2816, 0, 0, 0, 0, 0, 0, 0]
    flags := List.replicate 2816 0 ++ [0x80] }

/-- A 10×1 wrapping map for claim C2's witness: horizontal wrap enabled,
and the plane-0 value 7 stored at x = 9. -/
def exampleWrapMap : Tilemap :=
  { Tilemap.initState 480 48 with
    _mapWidth := 10
    _mapHeight := 1
    _mapData := some [0, 0, 0, 0, 0, 0, 0, 0, 0, 7]
    horizontalWrap := true }

/-- A state whose repaint cache already matches the current frame (origin
(0,0) gives start cell (-1,-1); animation frame 0; no refresh request), for
claim C5's witness. -/
def exampleMemoState : Tilemap :=
  { Tilemap.initState 0 0 with
    _needsRepaint := false
    _lastAnimationFrame := some 0
    _lastStartX := some (-1)
    _lastStartY := some (-1) }

/-- Claim C6: for every kind k ≥ 0 and every shape s in [0, 48),
`getAutotileKind (makeAutotileId k s) = k` and
`getAutotileShape (makeAutotileId k s) = s` (round-trip law). -/
theorem claim_C6_autotile_id_round_trip (k s : Nat) (hs : s < 48) :
    Tilemap.getAutotileKind (Tilemap.makeAutotileId k s) = k ∧
    Tilemap.getAutotileShape (Tilemap.makeAutotileId k s) = s := by
  unfold Tilemap.getAutotileKind Tilemap.getAutotileShape Tilemap.makeAutotileId
    Tilemap.TILE_ID_A1
  omega

/-- Witness for C6 at kind 3, shape 47. -/
theorem claim_C6_autotile_id_round_trip_witness :
    Tilemap.getAutotileKind (Tilemap.makeAutotileId 3 47) = 3 ∧
    Tilemap.getAutotileShape (Tilemap.makeAutotileId 3 47) = 47 :=
  claim_C6_autotile_id_round_trip 3 47 (by decide)

/-- Claim C7: over [0, TILE_ID_MAX), every visible tile id falls in exactly
one of the six categories A1, A2, A3, A4, A5, simple bank (id < TILE_ID_A5);
the five bank predicates are mutually exclusive (at most one holds) and,
together with the simple-bank range, exhaustive over [0, TILE_ID_MAX); and
the boundary constants are strictly ascending A5 < A1 < A2 < A3 < A4 < MAX. -/
theorem claim_C7_bank_partition :
    (∀ t, t < Tilemap.TILE_ID_MAX → Tilemap.isVisibleTile t = true →
      ([Tilemap.isTileA1 t, Tilemap.isTileA2 t, Tilemap.isTileA3 t,
        Tilemap.isTileA4 t, Tilemap.isTileA5 t,
        decide (t < Tilemap.TILE_ID_A5)].count true = 1)) ∧
    (∀ t, t < Tilemap.TILE_ID_MAX →
      ([Tilemap.isTileA1 t, Tilemap.isTileA2 t, Tilemap.isTileA3 t,
        Tilemap.isTileA4 t, Tilemap.isTileA5 t].count true ≤ 1 ∧
       ([Tilemap.isTileA1 t, Tilemap.isTileA2 t, Tilemap.isTileA3 t,
         Tilemap.isTileA4 t, Tilemap.isTileA5 t].count true = 1 ∨
        t < Tilemap.TILE_ID_A5))) ∧
    (Tilemap.TILE_ID_A5 < Tilemap.TILE_ID_A1 ∧
     Tilemap.TILE_ID_A1 < Tilemap.TILE_ID_A2 ∧
     Tilemap.TILE_ID_A2 < Tilemap.TILE_ID_A3 ∧
     Tilemap.TILE_ID_A3 < Tilemap.TILE_ID_A4 ∧
     Tilemap.TILE_ID_A4 < Tilemap.TILE_ID_MAX) := by
  refine ⟨?_, ?_, by decide⟩
  · intro t ht hv
    simp only [Tilemap.isVisibleTile, Tilemap.TILE_ID_MAX, Bool.and_eq_true,
      decide_eq_true_eq] at hv
    simp only [Tilemap.TILE_ID_MAX] at ht
    simp only [Tilemap.isTileA1, Tilemap.isTileA2, Tilemap.isTileA3,
      Tilemap.isTileA4, Tilemap.isTileA5, Tilemap.TILE_ID_A1,
      Tilemap.TILE_ID_A2, Tilemap.TILE_ID_A3, Tilemap.TILE_ID_A4,
      Tilemap.TILE_ID_A5, Tilemap.TILE_ID_MAX, List.count_cons,
      List.count_nil, beq_iff_eq, Bool.and_eq_true, decide_eq_true_eq]
    split_ifs <;> omega
  · intro t ht
    simp only [Tilemap.TILE_ID_MAX] at ht
    simp only [Tilemap.isTileA1, Tilemap.isTileA2, Tilemap.isTileA3,
      Tilemap.isTileA4, Tilemap.isTileA5, Tilemap.TILE_ID_A1,
      Tilemap.TILE_ID_A2, Tilemap.TILE_ID_A3, Tilemap.TILE_ID_A4,
      Tilemap.TILE_ID_A5, Tilemap.TILE_ID_MAX, List.count_cons,
      List.count_nil, beq_iff_eq, Bool.and_eq_true, decide_eq_true_eq]
    split_ifs <;> omega

/-- Witness for C7 at tile id 2048 (first A1 tile). -/
theorem claim_C7_bank_partition_witness :
    [Tilemap.isTileA1 2048, Tilemap.isTileA2 2048, Tilemap.isTileA3 2048,
     Tilemap.isTileA4 2048, Tilemap.isTileA5 2048,
     decide (2048 < Tilemap.TILE_ID_A5)].count true = 1 :=
  claim_C7_bank_partition.1 2048 (by decide) (by decide)

/-- Counterexample to claim C4 as stated: the floor table's entry 28 is
`[[2,4],[1,4],[2,5],[1,5]]`, whose third pair `(2, 5)` has the coordinate 5,
outside the claimed range 0–4. -/
theorem claim_C4_counterexample :
    (2, 5) ∈ Tilemap.FLOOR_AUTOTILE_TABLE.getD 28 [] ∧
    ¬(∀ e ∈ Tilemap.FLOOR_AUTOTILE_TABLE, ∀ p ∈ e, p.1 ≤ 4 ∧ p.2 ≤ 4) := by
  decide

/-- Claim C4 (amended): the floor autotile table has exactly 48 entries, the
wall table exactly 16, the waterfall table exactly 4; every entry of each
table consists of exactly 4 coordinate pairs; and every coordinate appearing
in a floor-table entry is a small integer in the range 0–5 (coordinates are
modelled as `Nat`, hence non-negative). -/
theorem claim_C4_amended_table_shapes :
    Tilemap.FLOOR_AUTOTILE_TABLE.length = 48 ∧
    Tilemap.WALL_AUTOTILE_TABLE.length = 16 ∧
    Tilemap.WATERFALL_AUTOTILE_TABLE.length = 4 ∧
    (∀ e ∈ Tilemap.FLOOR_AUTOTILE_TABLE, e.length = 4) ∧
    (∀ e ∈ Tilemap.WALL_AUTOTILE_TABLE, e.length = 4) ∧
    (∀ e ∈ Tilemap.WATERFALL_AUTOTILE_TABLE, e.length = 4) ∧
    (∀ e ∈ Tilemap.FLOOR_AUTOTILE_TABLE, ∀ p ∈ e, p.1 ≤ 5 ∧ p.2 ≤ 5) := by
  decide

unseal Rat.mul Rat.add Rat.sub Rat.inv in
/-- Claim C1: for the single-cell map whose ground plane 0 holds tile id
2048 (A1, kind 0, shape 0) with empty flags and animation frame 0,
expanding that spot emits exactly 4 quarter-rect commands to the lower
layer and nothing to the upper layer.  With waterSurfaceIndex =
[0,1,2,1][0 % 4] = 0 the base quadrant offset is bx = 0, by = 0, and the
four source coordinates are ((bx*2+qsx)*24, (by*2+qsy)*24) for the floor
table's shape-0 entry (qsx,qsy) ∈ [(2,4),(1,4),(2,3),(1,3)], i.e.
(48,96), (24,96), (48,72), (24,72), in quadrant order. -/
theorem claim_C1_deep_water_spot_expansion :
    exampleDeepWaterMap._addSpot 0 0 0 0 ⟨[], []⟩ =
      some ⟨[⟨0, 48, 96, 0, 0, 24, 24⟩, ⟨0, 24, 96, 24, 0, 24, 24⟩,
             ⟨0, 48, 72, 0, 24, 24, 24⟩, ⟨0, 24, 72, 24, 24, 24, 24⟩], []⟩ := by
  decide

unseal Rat.mul Rat.add Rat.sub Rat.inv in
/-- Claim C8: in the 1×2 map whose upper row's plane-1 tile is table-flagged
(A2 id 2816, flag 0x80) while the expanded cell's own plane-1 tile is not,
and whose plane-0 tile (A5 id 1536) is not a shadowing tile, expanding the
lower cell emits its one normal ground rect followed by exactly 2 extra
half-height (h = 12) rects — the table-edge stitching, sourced from the
table autotile's floor-table entries at quadrant indices 2 and 3, shifted
down by half a quadrant (source y 3*24+12 = 84) — and nothing else. -/
theorem claim_C8_table_edge_stitch :
    exampleTableEdgeMap._addSpot 0 0 0 1 ⟨[], []⟩ =
      some ⟨[⟨4, 0, 0, 0, 48, 48, 48⟩, ⟨1, 48, 84, 0, 48, 24, 12⟩,
             ⟨1, 24, 84, 24, 48, 24, 12⟩], []⟩ := by
  decide

/-- Claim C10: with the internal map data reference still null (before any
`setData`), `_readMapData` returns 0 for every coordinate and plane; in
particular a freshly constructed Tilemap, whatever its wrap flags, reads an
all-empty map instead of failing. -/
theorem claim_C10_null_map_reads_zero :
    (∀ tm : Tilemap, tm._mapData = none → ∀ x y z : Int,
      tm._readMapData x y z = 0) ∧
    (∀ (w h : ℚ) (hw vw : Bool) (x y z : Int),
      ({ Tilemap.initState w h with
          horizontalWrap := hw, verticalWrap := vw } : Tilemap)._readMapData
        x y z = 0) := by
  constructor
  · intro tm hnone x y z
    simp [Tilemap._readMapData, hnone]
  · intro w h hw vw x y z
    rfl

/-- Witness for C10: a freshly constructed Tilemap's map data is null and a
sample read returns 0. -/
theorem claim_C10_null_map_reads_zero_witness :
    (Tilemap.initState 816 624)._readMapData 5 (-3) 2 = 0 :=
  claim_C10_null_map_reads_zero.1 (Tilemap.initState 816 624) rfl 5 (-3) 2

/-- Claim C9: the child comparator orders drawables lexicographically by z,
then y for equal z, then the insertion sequence number (spriteId) for equal
z and y; and the three drawables with z = 4, 0, 0 and y = 10, 5 on the two
z = 0 ties sort to the order (z=0,y=5), (z=0,y=10), (z=4). -/
theorem claim_C9_child_depth_sort :
    (∀ a b : Child, Tilemap._compareChildOrder a b < 0 ↔
      (a.z < b.z ∨ (a.z = b.z ∧ (a.y < b.y ∨
        (a.y = b.y ∧ a.spriteId < b.spriteId))))) ∧
    Tilemap._sortChildren [⟨4, 10, 0⟩, ⟨0, 10, 1⟩, ⟨0, 5, 2⟩] =
      [⟨0, 5, 2⟩, ⟨0, 10, 1⟩, ⟨4, 10, 0⟩] := by
  constructor
  · intro a b
    unfold Tilemap._compareChildOrder
    split_ifs <;> omega
  · decide

/-- Claim C2: for every plane z, `_readMapData` applies true mathematical
modulo per enabled wrap flag and returns 0 out of bounds otherwise: with
horizontal wrap enabled and map width 10, reading x = -1 equals reading
x = 9 and reading x = 10 equals reading x = 0, for every y and plane; and
with a wrap flag disabled, any coordinate outside the map on that axis
reads 0 for every plane. -/
theorem claim_C2_wrap_and_bounds (tm : Tilemap) :
    (tm._mapWidth = 10 → tm.horizontalWrap = true → ∀ y z : Int,
      tm._readMapData (-1) y z = tm._readMapData 9 y z ∧
      tm._readMapData 10 y z = tm._readMapData 0 y z) ∧
    (tm.horizontalWrap = false → ∀ x y z : Int,
      (x < 0 ∨ tm._mapWidth ≤ x) → tm._readMapData x y z = 0) ∧
    (tm.verticalWrap = false → ∀ x y z : Int,
      (y < 0 ∨ tm._mapHeight ≤ y) → tm._readMapData x y z = 0) := by
  refine ⟨?_, ?_, ?_⟩
  · intro hw hhw y z
    cases hd : tm._mapData with
    | none => simp [Tilemap._readMapData, hd]
    | some data =>
      have h1 : numberMod (-1) 10 = 9 := by decide
      have h2 : numberMod 9 10 = 9 := by decide
      have h3 : numberMod 10 10 = 0 := by decide
      have h4 : numberMod 0 10 = 0 := by decide
      simp only [Tilemap._readMapData, hd, hw, hhw, if_true, h1, h2, h3, h4,
        and_self]
  · intro hhw x y z hx
    cases hd : tm._mapData with
    | none => simp [Tilemap._readMapData, hd]
    | some data =>
      simp only [Tilemap._readMapData, hd, hhw, Bool.false_eq_true, if_false]
      split_ifs <;> first | rfl | (exfalso; omega)
  · intro hvw x y z hy
    cases hd : tm._mapData with
    | none => simp [Tilemap._readMapData, hd]
    | some data =>
      simp only [Tilemap._readMapData, hd, hvw, Bool.false_eq_true, if_false]
      split_ifs <;> first | rfl | (exfalso; omega)

/-- Witness for C2 on the 10×1 wrapping map holding 7 at x = 9: the wrapped
reads at x = -1 and x = 9 agree (both 7). -/
theorem claim_C2_wrap_and_bounds_witness :
    exampleWrapMap._readMapData (-1) 0 0 = exampleWrapMap._readMapData 9 0 0 :=
  ((claim_C2_wrap_and_bounds exampleWrapMap).1 rfl rfl 0 0).1

/-- List indexing with `getElem?` succeeds exactly on indices below the
length (helper for the table-lookup analysis). -/
theorem list_getElem?_isSome_iff {α : Type} (l : List α) (i : Nat) :
    (l[i]?).isSome = true ↔ i < l.length := by
  rw [Option.isSome_iff_exists]
  constructor
  · rintro ⟨a, ha⟩
    exact (List.getElem?_eq_some.mp ha).1
  · intro h
    exact ⟨l[i], List.getElem?_eq_some.mpr ⟨h, rfl⟩⟩

/-- The floor autotile table has 48 entries. -/
theorem floor_table_len : Tilemap.FLOOR_AUTOTILE_TABLE.length = 48 := rfl

/-- The wall autotile table has 16 entries. -/
theorem wall_table_len : Tilemap.WALL_AUTOTILE_TABLE.length = 16 := rfl

/-- The waterfall autotile table has 4 entries. -/
theorem waterfall_table_len : Tilemap.WATERFALL_AUTOTILE_TABLE.length = 4 := rfl

/-- Counterexample to claim C3 as stated: tile id 4368 lies in (0,
TILE_ID_MAX) and is an A3 autotile with shape (4368 - 2048) % 48 = 16, so
`_addAutotile` selects the 16-entry wall table and the JavaScript lookup
`autotileTable[16]` is undefined — `table[i][0]` throws a TypeError, i.e.
the embedded `_addTile` returns `none` instead of completing. -/
theorem claim_C3_counterexample :
    0 < 4368 ∧ 4368 < Tilemap.TILE_ID_MAX ∧
    (Tilemap.initState 48 48)._addTile LayerRef.lower 4368 0 0 ⟨[], []⟩ =
      none := by
  decide

set_option maxHeartbeats 2000000 in
/-- Claim C3 (amended): for every tile id in (0, TILE_ID_MAX), `_addTile`
completes without raising an exception — i.e. the shape index is within the
bounds of whichever autotile table is selected — except exactly when the id
is an A3 autotile with shape ≥ 16, an A4 autotile in a wall row (odd
kind-row `ty`) with shape ≥ 16, or an A1 waterfall autotile (odd kind ≥ 5)
with shape ≥ 4; for those malformed ids the selected wall/waterfall table
is exceeded and the JavaScript code throws (here: `none`). -/
theorem claim_C3_amended_addTile_totality (tm : Tilemap) (r : LayerRef)
    (tileId : Nat) (dx dy : ℚ) (ls : Layers) (h0 : 0 < tileId)
    (hmax : tileId < Tilemap.TILE_ID_MAX) :
    (tm._addTile r tileId dx dy ls).isSome = true ↔
      (¬(Tilemap.isTileA3 tileId = true ∧ 16 ≤ Tilemap.getAutotileShape tileId) ∧
       ¬(Tilemap.isTileA4 tileId = true ∧
          (Tilemap.getAutotileKind tileId / 8) % 2 = 1 ∧
          16 ≤ Tilemap.getAutotileShape tileId) ∧
       ¬(Tilemap.isTileA1 tileId = true ∧ 4 ≤ Tilemap.getAutotileKind tileId ∧
          Tilemap.getAutotileKind tileId % 2 = 1 ∧
          4 ≤ Tilemap.getAutotileShape tileId)) := by
  simp only [Tilemap.TILE_ID_MAX] at hmax
  rcases Nat.lt_or_ge tileId 2048 with hlt | hge
  · have ha : Tilemap.isAutotile tileId = false := by
      simp only [Tilemap.isAutotile, Tilemap.TILE_ID_A1,
        decide_eq_false_iff_not]
      omega
    have hv : Tilemap.isVisibleTile tileId = true := by
      simp only [Tilemap.isVisibleTile, Tilemap.TILE_ID_MAX, Bool.and_eq_true,
        decide_eq_true_eq]
      omega
    unfold Tilemap._addTile
    simp only [hv, ha, Bool.false_eq_true, if_false, if_true,
      Option.isSome_some, true_iff, Tilemap.isTileA1, Tilemap.isTileA3,
      Tilemap.isTileA4, Tilemap.TILE_ID_A1, Tilemap.TILE_ID_A2,
      Tilemap.TILE_ID_A3, Tilemap.TILE_ID_A4, Tilemap.TILE_ID_MAX,
      Bool.and_eq_true, decide_eq_true_eq]
    omega
  · obtain ⟨d, rfl⟩ : ∃ d, tileId = 2048 + d := ⟨tileId - 2048, by omega⟩
    have ha : Tilemap.isAutotile (2048 + d) = true := by
      simp [Tilemap.isAutotile, Tilemap.TILE_ID_A1]
    have hv : Tilemap.isVisibleTile (2048 + d) = true := by
      simp only [Tilemap.isVisibleTile, Tilemap.TILE_ID_MAX, Bool.and_eq_true,
        decide_eq_true_eq]
      omega
    unfold Tilemap._addTile Tilemap._addAutotile
    rw [if_pos hv, if_pos ha]
    split_ifs with h1 h2 h3 h4 <;>
      (simp only [Option.isSome_map']
       try dsimp only
       rw [list_getElem?_isSome_iff]
       try simp only [apply_ite List.length, floor_table_len, wall_table_len,
         waterfall_table_len]
       try split_ifs
       all_goals (
         simp only [Tilemap.isTileA1, Tilemap.isTileA2, Tilemap.isTileA3,
           Tilemap.isTileA4, Tilemap.getAutotileKind, Tilemap.getAutotileShape,
           Tilemap.TILE_ID_A1, Tilemap.TILE_ID_A2, Tilemap.TILE_ID_A3,
           Tilemap.TILE_ID_A4, Tilemap.TILE_ID_MAX, Nat.add_sub_cancel_left,
           Bool.and_eq_true, decide_eq_true_eq, beq_iff_eq, Bool.not_eq_true,
           Bool.and_eq_false_iff, decide_eq_false_iff_not,
           apply_ite List.length, floor_table_len, wall_table_len,
           waterfall_table_len] at *
         omega))

/-- Witness for C3 (amended) at tile id 2048 (kind 0, shape 0): `_addTile`
succeeds. -/
theorem claim_C3_amended_addTile_totality_witness :
    ((Tilemap.initState 48 48)._addTile LayerRef.lower 2048 0 0
      ⟨[], []⟩).isSome = true :=
  (claim_C3_amended_addTile_totality (Tilemap.initState 48 48) LayerRef.lower
    2048 0 0 ⟨[], []⟩ (by decide) (by decide)).mpr (by decide)

/-- Claim C5: `updateTransform` re-expands the visible window iff the
repaint guard holds — an explicit refresh was requested, or the animation
frame or the computed start cell differ from the last committed ones.  When
the guard is false the state is returned unchanged (zero expansion work);
when it is true, the layers are replaced by a full re-expansion
(`_addAllSpots`, which starts from cleared layers) and the current frame
and start cell are committed.  Consequently two consecutive
`updateTransform` calls — with scroll origin, animation frame and refresh
flag untouched in between, as nothing else modifies them — leave the draw
layers' contents unchanged on the second call. -/
theorem claim_C5_repaint_memoization (tm tm1 tm2 : Tilemap)
    (h1 : tm.updateTransform = some tm1) (h2 : tm1.updateTransform = some tm2) :
    (tm.repaintGuard tm.updateStartX tm.updateStartY = false →
      tm1 = tm) ∧
    (tm.repaintGuard tm.updateStartX tm.updateStartY = true →
      tm._addAllSpots tm.updateStartX tm.updateStartY =
        some ⟨tm1._lowerLayer, tm1._upperLayer⟩ ∧
      tm1._lastStartX = some tm.updateStartX ∧
      tm1._lastStartY = some tm.updateStartY ∧
      tm1._lastAnimationFrame = some tm.animationFrame ∧
      tm1._needsRepaint = false) ∧
    (tm2._lowerLayer = tm1._lowerLayer ∧ tm2._upperLayer = tm1._upperLayer) := by
  simp only [Tilemap.updateTransform] at h1 h2
  by_cases hg : tm.repaintGuard tm.updateStartX tm.updateStartY = true
  · rw [if_pos hg] at h1
    cases haa : tm._addAllSpots tm.updateStartX tm.updateStartY with
    | none =>
      rw [haa] at h1
      exact absurd h1 (by simp)
    | some lsv =>
      rw [haa] at h1
      injection h1 with h1
      subst h1
      have hguard2 : Tilemap.repaintGuard { tm with
          _lastAnimationFrame := some tm.animationFrame,
          _lastStartX := some tm.updateStartX,
          _lastStartY := some tm.updateStartY,
          _lowerLayer := lsv.lower, _upperLayer := lsv.upper,
          _needsRepaint := false }
          (Tilemap.updateStartX { tm with
            _lastAnimationFrame := some tm.animationFrame,
            _lastStartX := some tm.updateStartX,
            _lastStartY := some tm.updateStartY,
            _lowerLayer := lsv.lower, _upperLayer := lsv.upper,
            _needsRepaint := false })
          (Tilemap.updateStartY { tm with
            _lastAnimationFrame := some tm.animationFrame,
            _lastStartX := some tm.updateStartX,
            _lastStartY := some tm.updateStartY,
            _lowerLayer := lsv.lower, _upperLayer := lsv.upper,
            _needsRepaint := false }) = false := by
        simp [Tilemap.repaintGuard, Tilemap.updateStartX, Tilemap.updateStartY]
      rw [if_neg (by simp [hguard2])] at h2
      injection h2 with h2
      subst h2
      exact ⟨fun hc => absurd hg (by simp [hc]),
        fun _ => ⟨rfl, rfl, rfl, rfl, rfl⟩, rfl, rfl⟩
  · rw [if_neg hg] at h1
    injection h1 with h1
    subst h1
    rw [if_neg hg] at h2
    injection h2 with h2
    subst h2
    exact ⟨fun _ => rfl, fun hc => absurd hc hg, rfl, rfl⟩

unseal Rat.mul Rat.add Rat.sub Rat.inv in
/-- Witness for C5 on a state whose repaint cache matches the current
frame: both calls succeed and the layers are unchanged. -/
theorem claim_C5_repaint_memoization_witness :
    exampleMemoState._lowerLayer = exampleMemoState._lowerLayer ∧
    exampleMemoState._upperLayer = exampleMemoState._upperLayer :=
  (claim_C5_repaint_memoization exampleMemoState exampleMemoState
    exampleMemoState (by decide) (by decide)).2.2
